import Mathlib

/-!
# KubeVirt: `virtctl addinterface` and the subresource API tests

A shallow embedding of

* `pkg/virtctl/network/dynamicifaces.go` (the `addinterface` command), and
* the polling closures and the freeze / unfreeze scenarios of
  `tests/subresource_api_test.go`.

Go values of type `error` are embedded as `GoError := Option String`: `none`
is `nil`, `some msg` is an error whose `Error()` text is `msg`.  Calls on the
API server are embedded by explicit state passing over an abstract server
state `σ`.
-/

/-- A Go `error`: `none` is `nil`, `some msg` an error with text `msg`. -/
abbrev GoError := Option String

namespace Network

/-- `v1.AddInterfaceOptions`, the payload of an interface hot-plug request. -/
structure AddInterfaceOptions where
  NetworkName : String
  InterfaceName : String
deriving DecidableEq, Repr

/-- The part of `kubecli.VirtualMachineInterface` the command uses:
`AddInterface(ctx, name, opts) error`, acting on the server state. -/
structure VirtualMachineInterface (σ : Type) where
  AddInterface : String → AddInterfaceOptions → σ → GoError × σ

/-- The part of `kubecli.VirtualMachineInstanceInterface` the command uses. -/
structure VirtualMachineInstanceInterface (σ : Type) where
  AddInterface : String → AddInterfaceOptions → σ → GoError × σ

/-- The part of `kubecli.KubevirtClient` the command uses: the two
namespaced resource handles. -/
structure KubevirtClient (σ : Type) where
  VirtualMachine : String → VirtualMachineInterface σ
  VirtualMachineInstance : String → VirtualMachineInstanceInterface σ

/-- `type dynamicIfacesCmd struct`. -/
structure dynamicIfacesCmd (σ : Type) where
  kvClient : KubevirtClient σ
  isPersistent : Bool
  namespace_ : String

/-- `func (dic *dynamicIfacesCmd) addInterface(vmName, networkName, ifaceName string) error`. -/
def dynamicIfacesCmd.addInterface {σ : Type} (dic : dynamicIfacesCmd σ)
    (vmName networkName ifaceName : String) (s : σ) : GoError × σ :=
  if dic.isPersistent then
    (dic.kvClient.VirtualMachine dic.namespace_).AddInterface vmName
      { NetworkName := networkName, InterfaceName := ifaceName } s
  else
    (dic.kvClient.VirtualMachineInstance dic.namespace_).AddInterface vmName
      { NetworkName := networkName, InterfaceName := ifaceName } s

/-! ### Ghost instrumentation: the log of mutation calls -/

/-- The two mutation endpoints: the persisted `VirtualMachine` (Machine) and
the live `VirtualMachineInstance` (Instance). -/
inductive Target where
  | Machine
  | Instance
deriving DecidableEq, Repr

/-- One `AddInterface` request as it reaches the API: the endpoint, the
namespace and name it is addressed to, and its payload. -/
structure MutationCall where
  target : Target
  namespace_ : String
  name : String
  options : AddInterfaceOptions
deriving DecidableEq, Repr

/-- The endpoint of client `c` behind target `t` in namespace `ns`. -/
def endpointOf {σ : Type} (c : KubevirtClient σ) (t : Target) (ns : String) :
    String → AddInterfaceOptions → σ → GoError × σ :=
  match t with
  | Target.Machine => (c.VirtualMachine ns).AddInterface
  | Target.Instance => (c.VirtualMachineInstance ns).AddInterface

/-- Ghost wrapper around a client: every `AddInterface` call on either
endpoint is appended to a log and then delegated, unchanged, to `c`. -/
def traced {σ : Type} (c : KubevirtClient σ) : KubevirtClient (σ × List MutationCall) where
  VirtualMachine ns :=
    { AddInterface := fun name opts st =>
        let r := (c.VirtualMachine ns).AddInterface name opts st.1
        (r.1, (r.2, st.2 ++ [⟨Target.Machine, ns, name, opts⟩])) }
  VirtualMachineInstance ns :=
    { AddInterface := fun name opts st =>
        let r := (c.VirtualMachineInstance ns).AddInterface name opts st.1
        (r.1, (r.2, st.2 ++ [⟨Target.Instance, ns, name, opts⟩])) }

/-- The target the durability flag stands for. -/
def targetOfFlag (isPersistent : Bool) : Target :=
  if isPersistent then Target.Machine else Target.Instance

/-- The mutation calls one `addInterface` invocation issues, read off the
ghost log of the traced client. -/
def issuedCalls {σ : Type} (c : KubevirtClient σ) (isPersistent : Bool)
    (ns vmName networkName ifaceName : String) (s : σ) : List MutationCall :=
  (dynamicIfacesCmd.addInterface ⟨traced c, isPersistent, ns⟩
    vmName networkName ifaceName (s, [])).2.2

/-! ### Building and running the command -/

/-- The part of `clientcmd.ClientConfig` the command uses: the outcome of
`Namespace() (string, bool, error)`, either the error text or the namespace
and the overridden flag. -/
structure ClientConfig where
  Namespace : Except String (String × Bool)

/-- The package-level variables bound to the command's flags. -/
structure Flags where
  ifaceName : String
  networkAttachmentDefinitionName : String
  persist : Bool
deriving DecidableEq, Repr

/-- `func newDynamicIfaceCmd(clientCfg, persistState) (*dynamicIfacesCmd, error)`.
`kubecli.GetKubevirtClientFromClientConfig` is not part of the file and is
taken as a parameter: it yields a client or the text of an error. -/
def newDynamicIfaceCmd {σ : Type}
    (GetKubevirtClientFromClientConfig : ClientConfig → Except String (KubevirtClient σ))
    (clientCfg : ClientConfig) (persistState : Bool) : Except String (dynamicIfacesCmd σ) :=
  match GetKubevirtClientFromClientConfig clientCfg with
  | Except.error err => Except.error ("cannot obtain KubeVirt client: " ++ err)
  | Except.ok virtClient =>
    match clientCfg.Namespace with
    | Except.error err => Except.error err
    | Except.ok (ns, _) =>
      Except.ok { kvClient := virtClient, isPersistent := persistState, namespace_ := ns }

/-- The text `RunE` puts in front of an error of `newDynamicIfaceCmd`. -/
def creatingCommandText : String := "error creating the `AddInterface` command: "

/-- The `RunE` closure of `NewAddInterfaceCommand`.  The result is `none` when
the Go code panics (`args[0]` on an empty argument list), otherwise the
returned error and the server state. -/
def NewAddInterfaceCommand.RunE {σ : Type}
    (GetKubevirtClientFromClientConfig : ClientConfig → Except String (KubevirtClient σ))
    (clientConfig : ClientConfig) (flags : Flags) (args : List String) (s : σ) :
    Option (GoError × σ) :=
  match newDynamicIfaceCmd GetKubevirtClientFromClientConfig clientConfig flags.persist with
  | Except.error err => some (some (creatingCommandText ++ err), s)
  | Except.ok c =>
    match args with
    | [] => none
    | vmName :: _ =>
      some (c.addInterface vmName flags.networkAttachmentDefinitionName flags.ifaceName s)

/-! ### A reference endpoint that rejects duplicate interface names -/

/-- An interface recorded by the reference endpoint: where it is attached and
under which name. -/
structure Attachment where
  target : Target
  namespace_ : String
  name : String
  ifaceName : String
deriving DecidableEq, Repr

/-- The error of the reference endpoint for a name already present. -/
def conflictText : String := "interface name already attached"

/-- Reference `AddInterface` endpoint: a name already attached to the same
target is rejected and the state left alone, a new name is recorded. -/
def storeAddInterface (t : Target) (ns name : String) (opts : AddInterfaceOptions)
    (st : List Attachment) : GoError × List Attachment :=
  if (⟨t, ns, name, opts.InterfaceName⟩ : Attachment) ∈ st then (some conflictText, st)
  else (none, st ++ [⟨t, ns, name, opts.InterfaceName⟩])

/-- The client whose two endpoints are the reference endpoint. -/
def storeClient : KubevirtClient (List Attachment) where
  VirtualMachine ns := { AddInterface := storeAddInterface Target.Machine ns }
  VirtualMachineInstance ns := { AddInterface := storeAddInterface Target.Instance ns }

/-- A client whose two endpoints always answer with the given result. -/
def constClient (r : GoError) : KubevirtClient Unit where
  VirtualMachine _ := { AddInterface := fun _ _ st => (r, st) }
  VirtualMachineInstance _ := { AddInterface := fun _ _ st => (r, st) }

end Network

namespace Subresource

/-! ### The restart wait of `tests/subresource_api_test.go` -/

/-- `v1.VirtualMachineInstancePhase`, a Go string type. -/
abbrev VirtualMachineInstancePhase := String

/-- Modelled from the spec: the phase constants of `kubevirt.io/api/core/v1`,
whose declarations are not part of the sources at hand.  The data model names
the phases by their text (`Running`, ...); `VmPhaseUnset` is the zero value of
the string type, the phase of an Instance that has none yet. -/
def VmPhaseUnset : VirtualMachineInstancePhase := ""

/-- Modelled from the spec: the phase constant `v1.Running` (see `VmPhaseUnset`). -/
def Running : VirtualMachineInstancePhase := "Running"

/-- The fields of `v1.VirtualMachineInstanceStatus` the tests read. -/
structure VirtualMachineInstanceStatus where
  Phase : VirtualMachineInstancePhase
  FSFreezeStatus : String
deriving DecidableEq, Repr

/-- The fields of `v1.VirtualMachineInstance` the tests read. -/
structure VirtualMachineInstance where
  UID : String
  Status : VirtualMachineInstanceStatus
deriving DecidableEq, Repr

/-- The polling closure of the restart tests (`test_id:1304`, `3175`, `3176`):
`vmi` is the Instance fetched before the restart, `get` the outcome of the
`Get` call of this poll (an error text or the fetched Instance).
`if err != nil || vmi.UID == newVMI.UID { return v1.VmPhaseUnset }; return newVMI.Status.Phase`. -/
def restartPoll (vmi : VirtualMachineInstance) (get : Except String VirtualMachineInstance) :
    VirtualMachineInstancePhase :=
  match get with
  | Except.error _ => VmPhaseUnset
  | Except.ok newVMI => if vmi.UID == newVMI.UID then VmPhaseUnset else newVMI.Status.Phase

/-- The poll observed the phase of the Instance it fetched. -/
def observedFetchedPhase (vmi : VirtualMachineInstance)
    (get : Except String VirtualMachineInstance) : Prop :=
  ∃ newVMI, get = Except.ok newVMI ∧ restartPoll vmi get = newVMI.Status.Phase

/-- The fetch succeeded and the fetched UID differs from the recorded one. -/
def fetchedNewIncarnation (vmi : VirtualMachineInstance)
    (get : Except String VirtualMachineInstance) : Prop :=
  ∃ newVMI, get = Except.ok newVMI ∧ newVMI.UID ≠ vmi.UID

/-! ### The access check `testClientJob` -/

/-- `k8sv1.PodPhase`, a Go string type of the Kubernetes API. -/
abbrev PodPhase := String

/-- `k8sv1.PodSucceeded`. -/
def PodSucceeded : PodPhase := "Succeeded"

/-- `k8sv1.PodFailed`. -/
def PodFailed : PodPhase := "Failed"

/-- What `testClientJob` decides before it creates the tester pod: the service
account of the pod (`""` when none is set), the command of its container, and
the phase the pod is expected to end in. -/
structure ClientJob where
  ServiceAccountName : String
  Command : List String
  expectedPhase : PodPhase
deriving DecidableEq, Repr

/-- The deciding part of `func testClientJob(virtCli, withServiceAccount, resource)`.
`util.NamespaceTestDefault` and `testsuite.SubresourceServiceAccountName` are
not part of the file and are taken as parameters.
`expectedPhase := k8sv1.PodFailed`, then
`if withServiceAccount { ...; expectedPhase = k8sv1.PodSucceeded }
 else if resource == "version" || resource == "guestfs" { expectedPhase = k8sv1.PodSucceeded }`. -/
def testClientJob (NamespaceTestDefault SubresourceServiceAccountName : String)
    (withServiceAccount : Bool) (resource : String) : ClientJob :=
  let job : ClientJob :=
    { ServiceAccountName := ""
      Command := ["/subresource-access-test", "-n", NamespaceTestDefault, resource]
      expectedPhase := PodFailed }
  if withServiceAccount then
    { job with ServiceAccountName := SubresourceServiceAccountName, expectedPhase := PodSucceeded }
  else if resource == "version" || resource == "guestfs" then
    { job with expectedPhase := PodSucceeded }
  else job

end Subresource

namespace Quiescence

/-! ### The Quiescence Controller

The server side of `Freeze` / `Unfreeze` is not part of the sources at hand
(only the tests that drive it are), so the controller is modelled from the
specification, sections 3, 4.3 and 5: one state machine per Instance, time
counted in whole units. -/

/-- Modelled from the spec: the Freeze Session of section 3, "armed-at
timestamp, optional deadline"; the controller that owns it is missing. -/
structure FreezeSession where
  armedAt : Nat
  deadline : Option Nat
deriving DecidableEq, Repr

/-- Modelled from the spec: what the missing Quiescence Controller keeps for
one Instance: whether the guest has a cooperating agent, the current time, the
active Freeze Sessions (the freeze is active exactly while one exists), and,
as a ghost record, the times at which a deadline issued its reversal call. -/
structure Instance where
  guestAgent : Bool
  now : Nat
  sessions : List FreezeSession
  autoUnfreezes : List Nat
deriving DecidableEq, Repr

/-- Modelled from the spec: the two states of the missing controller's state
machine, `Unfrozen → Frozen → Unfrozen`. -/
inductive FreezeState where
  | Unfrozen
  | Frozen
deriving DecidableEq, Repr

/-- Modelled from the spec: the state of the missing controller for an
Instance; a Freeze Session "exists only while a freeze is active". -/
def state (i : Instance) : FreezeState :=
  if i.sessions.isEmpty then FreezeState.Unfrozen else FreezeState.Frozen

/-- Modelled from the spec: the filesystem-freeze status the missing
controller reports, `""` or `frozen`. -/
def FSFreezeStatus (i : Instance) : String :=
  if i.sessions.isEmpty then "" else "frozen"

/-- Modelled from the spec: the deadlines pending for an Instance in the
missing controller. -/
def pendingDeadlines (i : Instance) : List Nat :=
  i.sessions.filterMap FreezeSession.deadline

/-- Modelled from the spec: the condition the missing controller fails with
for a guest without cooperating agent, in the words of section 4.3,
"operation unsupported by guest". -/
def unsupportedText : String := "operation unsupported by guest"

/-- Modelled from the spec: `freeze(instance, timeout)` of the missing
controller.  Without a guest agent it fails and changes nothing.  Otherwise it
is accepted and the Instance has the one session armed now, whatever was
there before: with no deadline for `timeout = 0`, with the deadline
`now + timeout` otherwise. -/
def freeze (timeout : Nat) (i : Instance) : GoError × Instance :=
  if i.guestAgent then
    (none, { i with sessions :=
      [{ armedAt := i.now, deadline := if timeout = 0 then none else some (i.now + timeout) }] })
  else (some unsupportedText, i)

/-- Modelled from the spec: `unfreeze(instance)` of the missing controller.
Without a guest agent it fails and changes nothing.  Otherwise it is accepted,
the session (if any) is destroyed and with it the pending deadline. -/
def unfreeze (i : Instance) : GoError × Instance :=
  if i.guestAgent then (none, { i with sessions := [] }) else (some unsupportedText, i)

/-- Modelled from the spec: a session of the missing controller whose deadline
has been reached at time `now`. -/
def expired (now : Nat) (s : FreezeSession) : Bool :=
  match s.deadline with
  | none => false
  | some d => decide (d ≤ now)

/-- Modelled from the spec: one unit of time passes in the missing controller.
When the deadline of a session is reached, the controller "issues the same
mutation an explicit unfreeze would issue, without caller involvement"; the
call is noted in the ghost record. -/
def tick (i : Instance) : Instance :=
  let j := { i with now := i.now + 1 }
  if j.sessions.any (expired j.now) then
    { (unfreeze j).2 with autoUnfreezes := j.autoUnfreezes ++ [j.now] }
  else j

/-- Modelled from the spec: `n` units of time pass in the missing controller,
with no call from outside. -/
def wait : Nat → Instance → Instance
  | 0, i => i
  | n + 1, i => wait n (tick i)

/-- Modelled from the spec: what can happen to an Instance of the missing
controller: a freeze call, an unfreeze call, a unit of time passing. -/
inductive Event where
  | freeze (timeout : Nat)
  | unfreeze
  | tick
deriving DecidableEq, Repr

/-- Modelled from the spec: one event on the missing controller, with the
result returned to the caller (`nil` for the passing of time). -/
def step (e : Event) (i : Instance) : GoError × Instance :=
  match e with
  | Event.freeze timeout => freeze timeout i
  | Event.unfreeze => unfreeze i
  | Event.tick => (none, tick i)

/-- Modelled from the spec: a sequence of events on the missing controller,
serialised per Instance; the results are returned in order. -/
def run : List Event → Instance → List GoError × Instance
  | [], i => ([], i)
  | e :: es, i => ((step e i).1 :: (run es (step e i).2).1, (run es (step e i).2).2)

/-- Modelled from the spec: an Instance as the missing controller first sees
it: unfrozen, no session, no reversal issued. -/
def initial (guestAgent : Bool) (now : Nat) : Instance :=
  { guestAgent := guestAgent, now := now, sessions := [], autoUnfreezes := [] }

/-- Modelled from the spec: the states the missing controller can bring an
Instance to, from an initial one, by some sequence of events. -/
def Reachable (i : Instance) : Prop :=
  ∃ guestAgent now es, (run es (initial guestAgent now)).2 = i

/-! ### The exposed operations and the tests without guest agent -/

/-- Modelled from the spec: the exposed operation `Freeze(instanceName,
namespace, timeout) error` of section 6, whose code is missing, for the
Instance named.  It forwards to the controller; a failure of the controller
is returned as an error "containing an identifiable marker" (section 8).  The
spec does not give the marker's text, so it is the parameter `marker`; the
text returned is the marker followed by the controller's condition. -/
def Freeze (marker : String) (timeout : Nat) (i : Instance) : GoError × Instance :=
  match (freeze timeout i).1 with
  | none => (none, (freeze timeout i).2)
  | some condition => (some (marker ++ ": " ++ condition), (freeze timeout i).2)

/-- Modelled from the spec: the exposed operation `Unfreeze(instanceName,
namespace) error` of section 6, whose code is missing; see `Freeze`. -/
def Unfreeze (marker : String) (i : Instance) : GoError × Instance :=
  match (unfreeze i).1 with
  | none => (none, (unfreeze i).2)
  | some condition => (some (marker ++ ": " ++ condition), (unfreeze i).2)

/-- `expectedErr := "Internal error occurred"` of the tests `test_id:7476` and
`test_id:7477`. -/
def expectedErr : String := "Internal error occurred"

/-- The matcher `ContainSubstring(substr)` applied to `actual`. -/
def ContainSubstring (actual substr : String) : Bool :=
  decide (List.IsInfix substr.data actual.data)

/-- The assertions of `[test_id:7476]Freeze without guest agent` on the client
operation `Freeze` and the Instance under test:
`err = ...Freeze(vm.Name, 0); Expect(err).To(HaveOccurred());
 Expect(err.Error()).To(ContainSubstring(expectedErr))`. -/
def freezeWithoutGuestAgent (Freeze : Nat → Instance → GoError × Instance)
    (vmi : Instance) : Bool :=
  match (Freeze 0 vmi).1 with
  | none => false
  | some text => ContainSubstring text expectedErr

/-- The assertions of `[test_id:7477]Unfreeze without guest agent`:
`err = ...Unfreeze(vm.Name); Expect(err).To(HaveOccurred());
 Expect(err.Error()).To(ContainSubstring(expectedErr))`. -/
def unfreezeWithoutGuestAgent (Unfreeze : Instance → GoError × Instance)
    (vmi : Instance) : Bool :=
  match (Unfreeze vmi).1 with
  | none => false
  | some text => ContainSubstring text expectedErr

/-- The invariant of the controller: a session exists only for a guest with an
agent, there is at most one, and its deadline, if any, is still ahead. -/
def Inv (i : Instance) : Prop :=
  (i.sessions ≠ [] → i.guestAgent = true)
  ∧ i.sessions.length ≤ 1
  ∧ ∀ s ∈ i.sessions, expired i.now s = false

end Quiescence

namespace Network

/-! ### Shared lemmas about `addInterface` -/

/-- Full characterisation of one traced invocation: the log grows by exactly
the call to the endpoint selected by the flag, and result and server state are
those of that endpoint. -/
theorem addInterface_traced {σ : Type} (c : KubevirtClient σ) (p : Bool)
    (ns vmName networkName ifaceName : String) (s : σ) (log : List MutationCall) :
    dynamicIfacesCmd.addInterface ⟨traced c, p, ns⟩ vmName networkName ifaceName (s, log)
      = ((endpointOf c (targetOfFlag p) ns vmName ⟨networkName, ifaceName⟩ s).1,
         ((endpointOf c (targetOfFlag p) ns vmName ⟨networkName, ifaceName⟩ s).2,
          log ++ [⟨targetOfFlag p, ns, vmName, ⟨networkName, ifaceName⟩⟩])) := by
  cases p <;> rfl

/-- The untraced invocation is the single endpoint call. -/
theorem addInterface_eq_endpoint {σ : Type} (c : KubevirtClient σ) (p : Bool)
    (ns vmName networkName ifaceName : String) (s : σ) :
    dynamicIfacesCmd.addInterface ⟨c, p, ns⟩ vmName networkName ifaceName s
      = endpointOf c (targetOfFlag p) ns vmName ⟨networkName, ifaceName⟩ s := by
  cases p <;> rfl

theorem issuedCalls_eq {σ : Type} (c : KubevirtClient σ) (p : Bool)
    (ns vmName networkName ifaceName : String) (s : σ) :
    issuedCalls c p ns vmName networkName ifaceName s
      = [⟨targetOfFlag p, ns, vmName, ⟨networkName, ifaceName⟩⟩] := by
  unfold issuedCalls
  rw [addInterface_traced]
  rfl

/-! ### Claims about `addInterface` -/

/-- C1: the target of the `AddInterface` call is decided by the durability
flag alone: with `isPersistent = true` the call goes to the VirtualMachine
(Machine) endpoint, with `isPersistent = false` to the VirtualMachineInstance
(Instance) endpoint, for every client, namespace, VM name, network name,
interface name and server state; two invocations with the same flag select the
same target whatever else differs. -/
theorem addInterface_target_by_flag {σ τ : Type} (c : KubevirtClient σ) (d : KubevirtClient τ)
    (p : Bool) (ns vmName networkName ifaceName : String) (s : σ)
    (ns2 vmName2 networkName2 ifaceName2 : String) (t : τ) :
    (issuedCalls c true ns vmName networkName ifaceName s).map MutationCall.target
        = [Target.Machine]
    ∧ (issuedCalls c false ns vmName networkName ifaceName s).map MutationCall.target
        = [Target.Instance]
    ∧ (issuedCalls c p ns vmName networkName ifaceName s).map MutationCall.target
        = (issuedCalls d p ns2 vmName2 networkName2 ifaceName2 t).map MutationCall.target := by
  simp [issuedCalls_eq, targetOfFlag]

/-- C2: every invocation of `addInterface` issues exactly one `AddInterface`
call, whatever the flag, the arguments and the endpoint's answer: the log of
calls grows by exactly one entry, and the calls to the Machine endpoint and to
the Instance endpoint add up to one, so never zero calls, never two, never
both endpoints. -/
theorem addInterface_exactly_one_call {σ : Type} (c : KubevirtClient σ) (p : Bool)
    (ns vmName networkName ifaceName : String) (s : σ) (log : List MutationCall) :
    (∃ call, (dynamicIfacesCmd.addInterface ⟨traced c, p, ns⟩ vmName networkName ifaceName
        (s, log)).2.2 = log ++ [call])
    ∧ (issuedCalls c p ns vmName networkName ifaceName s).length = 1
    ∧ ((issuedCalls c p ns vmName networkName ifaceName s).filter
          (fun k => k.target = Target.Machine)).length
        + ((issuedCalls c p ns vmName networkName ifaceName s).filter
          (fun k => k.target = Target.Instance)).length = 1
    ∧ ¬ (Target.Machine ∈ (issuedCalls c p ns vmName networkName ifaceName s).map
            MutationCall.target
          ∧ Target.Instance ∈ (issuedCalls c p ns vmName networkName ifaceName s).map
            MutationCall.target) := by
  refine ⟨⟨_, by rw [addInterface_traced]⟩, ?_, ?_, ?_⟩
  · simp [issuedCalls_eq]
  · cases p <;> simp [issuedCalls_eq, targetOfFlag]
  · cases p <;> simp [issuedCalls_eq, targetOfFlag]

/-- C3: the request `addInterface` sends is addressed to the command's own
namespace and to `vmName`, its payload carries `networkName` and `ifaceName`
exactly as given (no rewriting, no validation: a `<name>` and a
`<namespace>/<name>` network reference are forwarded alike), and the address
and payload are the same on the persistent and on the live path. -/
theorem addInterface_request_payload {σ : Type} (c : KubevirtClient σ) (p : Bool)
    (ns vmName networkName ifaceName : String) (s : σ) :
    (issuedCalls c p ns vmName networkName ifaceName s).map
        (fun k => (k.namespace_, k.name, k.options.NetworkName, k.options.InterfaceName))
      = [(ns, vmName, networkName, ifaceName)]
    ∧ (issuedCalls c true ns vmName networkName ifaceName s).map
        (fun k => (k.namespace_, k.name, k.options))
      = (issuedCalls c false ns vmName networkName ifaceName s).map
        (fun k => (k.namespace_, k.name, k.options))
    ∧ (issuedCalls c p ns vmName "blue-net" ifaceName s).map
        (fun k => k.options.NetworkName) = ["blue-net"]
    ∧ (issuedCalls c p ns vmName "tenant-a/blue-net" ifaceName s).map
        (fun k => k.options.NetworkName) = ["tenant-a/blue-net"] := by
  simp [issuedCalls_eq]

/-- C4: `addInterface` returns exactly what its single endpoint call returned:
result and server state are those of the endpoint selected by the flag, that
call is the only one issued, and so `addInterface` returns an error if and
only if the endpoint did, with the same error value. -/
theorem addInterface_surfaces_outcome {σ : Type} (c : KubevirtClient σ) (p : Bool)
    (ns vmName networkName ifaceName : String) (s : σ) :
    dynamicIfacesCmd.addInterface ⟨c, p, ns⟩ vmName networkName ifaceName s
      = endpointOf c (targetOfFlag p) ns vmName ⟨networkName, ifaceName⟩ s
    ∧ (dynamicIfacesCmd.addInterface ⟨traced c, p, ns⟩ vmName networkName ifaceName (s, [])).1
      = (endpointOf c (targetOfFlag p) ns vmName ⟨networkName, ifaceName⟩ s).1
    ∧ issuedCalls c p ns vmName networkName ifaceName s
      = [⟨targetOfFlag p, ns, vmName, ⟨networkName, ifaceName⟩⟩]
    ∧ (∀ e, (dynamicIfacesCmd.addInterface ⟨c, p, ns⟩ vmName networkName ifaceName s).1 = some e
          ↔ (endpointOf c (targetOfFlag p) ns vmName ⟨networkName, ifaceName⟩ s).1 = some e)
    ∧ ((dynamicIfacesCmd.addInterface ⟨c, p, ns⟩ vmName networkName ifaceName s).1 = none
          ↔ (endpointOf c (targetOfFlag p) ns vmName ⟨networkName, ifaceName⟩ s).1 = none) := by
  refine ⟨addInterface_eq_endpoint .., ?_, issuedCalls_eq .., ?_, ?_⟩
  · rw [addInterface_traced]
  · intro e; rw [addInterface_eq_endpoint]
  · rw [addInterface_eq_endpoint]

/-- C5: against an endpoint that accepts an interface name not yet present
(and records it) and rejects a name already present with the conflict error,
two consecutive `addInterface` calls with the same flag and the same arguments
return `nil` for the first and the conflict error for the second. -/
theorem addInterface_twice_conflict {σ : Type} (c : KubevirtClient σ)
    (present : Target → String → String → String → σ → Prop) (conflict : String)
    (haccept : ∀ t ns name opts s, ¬ present t ns name opts.InterfaceName s →
      (endpointOf c t ns name opts s).1 = none
        ∧ present t ns name opts.InterfaceName (endpointOf c t ns name opts s).2)
    (hreject : ∀ t ns name opts s, present t ns name opts.InterfaceName s →
      (endpointOf c t ns name opts s).1 = some conflict)
    (p : Bool) (ns vmName networkName ifaceName : String) (s : σ)
    (hfresh : ¬ present (targetOfFlag p) ns vmName ifaceName s) :
    (dynamicIfacesCmd.addInterface ⟨c, p, ns⟩ vmName networkName ifaceName s).1 = none
    ∧ (dynamicIfacesCmd.addInterface ⟨c, p, ns⟩ vmName networkName ifaceName
        (dynamicIfacesCmd.addInterface ⟨c, p, ns⟩ vmName networkName ifaceName s).2).1
      = some conflict := by
  simp only [addInterface_eq_endpoint]
  obtain ⟨h1, h2⟩ := haccept (targetOfFlag p) ns vmName ⟨networkName, ifaceName⟩ s hfresh
  exact ⟨h1, hreject (targetOfFlag p) ns vmName ⟨networkName, ifaceName⟩ _ h2⟩

/-- The reference endpoint records a new name and answers `nil`. -/
theorem storeClient_accepts (t : Target) (ns name : String) (opts : AddInterfaceOptions)
    (s : List Attachment) (h : ¬ (⟨t, ns, name, opts.InterfaceName⟩ : Attachment) ∈ s) :
    (endpointOf storeClient t ns name opts s).1 = none
      ∧ (⟨t, ns, name, opts.InterfaceName⟩ : Attachment) ∈ (endpointOf storeClient t ns name opts s).2 := by
  cases t <;> simp [endpointOf, storeClient, storeAddInterface, h]

/-- The reference endpoint rejects a name already present. -/
theorem storeClient_rejects (t : Target) (ns name : String) (opts : AddInterfaceOptions)
    (s : List Attachment) (h : (⟨t, ns, name, opts.InterfaceName⟩ : Attachment) ∈ s) :
    (endpointOf storeClient t ns name opts s).1 = some conflictText := by
  cases t <;> simp [endpointOf, storeClient, storeAddInterface, h]

/-- Witness for C5: the reference endpoint, the live path, an empty server. -/
theorem addInterface_twice_conflict_witness :
    (dynamicIfacesCmd.addInterface ⟨storeClient, false, "default"⟩ "vmi-a" "blue-net" "eth1"
        []).1 = none
    ∧ (dynamicIfacesCmd.addInterface ⟨storeClient, false, "default"⟩ "vmi-a" "blue-net" "eth1"
        (dynamicIfacesCmd.addInterface ⟨storeClient, false, "default"⟩ "vmi-a" "blue-net" "eth1"
          []).2).1 = some conflictText :=
  addInterface_twice_conflict storeClient
    (fun t ns name i s => (⟨t, ns, name, i⟩ : Attachment) ∈ s) conflictText
    (fun t ns name opts s h => storeClient_accepts t ns name opts s h)
    (fun t ns name opts s h => storeClient_rejects t ns name opts s h)
    false "default" "vmi-a" "blue-net" "eth1" [] (by simp)

/-- C6: an error raised while building the command (the client cannot be
obtained, or the namespace cannot be determined) is returned by `RunE` behind
the text "error creating the `AddInterface` command: " and no mutation call is
made; once the command is built, `RunE` returns exactly what the endpoint
selected by the `persist` flag returned, nothing put in front of it, after
exactly one call. -/
theorem RunE_error_context {σ : Type}
    (getClient : ClientConfig → Except String (KubevirtClient σ))
    (cfg : ClientConfig) (flags : Flags) (args : List String) (s : σ)
    (log : List MutationCall) :
    (∀ e, getClient cfg = Except.error e →
      NewAddInterfaceCommand.RunE (fun k => Except.map traced (getClient k)) cfg flags args (s, log)
        = some (some ("error creating the `AddInterface` command: "
                        ++ ("cannot obtain KubeVirt client: " ++ e)), (s, log)))
    ∧ (∀ c e, getClient cfg = Except.ok c → cfg.Namespace = Except.error e →
      NewAddInterfaceCommand.RunE (fun k => Except.map traced (getClient k)) cfg flags args (s, log)
        = some (some ("error creating the `AddInterface` command: " ++ e), (s, log)))
    ∧ (∀ c ns b vmName rest, getClient cfg = Except.ok c → cfg.Namespace = Except.ok (ns, b) →
        args = vmName :: rest →
      NewAddInterfaceCommand.RunE (fun k => Except.map traced (getClient k)) cfg flags args (s, log)
        = some ((endpointOf c (targetOfFlag flags.persist) ns vmName
                  ⟨flags.networkAttachmentDefinitionName, flags.ifaceName⟩ s).1,
                ((endpointOf c (targetOfFlag flags.persist) ns vmName
                  ⟨flags.networkAttachmentDefinitionName, flags.ifaceName⟩ s).2,
                 log ++ [⟨targetOfFlag flags.persist, ns, vmName,
                  ⟨flags.networkAttachmentDefinitionName, flags.ifaceName⟩⟩]))) := by
  refine ⟨?_, ?_, ?_⟩
  · intro e h
    simp [NewAddInterfaceCommand.RunE, newDynamicIfaceCmd, h, Except.map, creatingCommandText]
  · intro c e h hn
    simp [NewAddInterfaceCommand.RunE, newDynamicIfaceCmd, h, hn, Except.map, creatingCommandText]
  · intro c ns b vmName rest h hn ha
    subst ha
    simp only [NewAddInterfaceCommand.RunE, newDynamicIfaceCmd, h, hn, Except.map]
    rw [addInterface_traced]

/-- Witness for C6: a client that cannot be obtained, a namespace that cannot
be determined, and a built command whose endpoint rejects the attachment. -/
theorem RunE_error_context_witness :
    NewAddInterfaceCommand.RunE
        (fun k => Except.map traced
          ((fun _ => (Except.error "no kubeconfig" : Except String (KubevirtClient Unit))) k))
        ⟨Except.ok ("default", false)⟩ ⟨"eth1", "blue-net", false⟩ ["vmi-a"] ((), [])
      = some (some ("error creating the `AddInterface` command: "
                      ++ ("cannot obtain KubeVirt client: " ++ "no kubeconfig")), ((), []))
    ∧ NewAddInterfaceCommand.RunE
        (fun k => Except.map traced ((fun _ => Except.ok (constClient none)) k))
        ⟨Except.error "no namespace"⟩ ⟨"eth1", "blue-net", true⟩ ["vm-a"] ((), [])
      = some (some ("error creating the `AddInterface` command: " ++ "no namespace"), ((), []))
    ∧ NewAddInterfaceCommand.RunE
        (fun k => Except.map traced ((fun _ => Except.ok (constClient (some "not found"))) k))
        ⟨Except.ok ("default", false)⟩ ⟨"eth1", "blue-net", true⟩ ["vm-a"] ((), [])
      = some (some "not found",
          ((), [] ++ [⟨Target.Machine, "default", "vm-a", ⟨"blue-net", "eth1"⟩⟩])) :=
  ⟨(RunE_error_context (fun _ => Except.error "no kubeconfig")
      ⟨Except.ok ("default", false)⟩ ⟨"eth1", "blue-net", false⟩ ["vmi-a"] () []).1
      "no kubeconfig" rfl,
   (RunE_error_context (fun _ => Except.ok (constClient none))
      ⟨Except.error "no namespace"⟩ ⟨"eth1", "blue-net", true⟩ ["vm-a"] () []).2.1
      (constClient none) "no namespace" rfl rfl,
   (RunE_error_context (fun _ => Except.ok (constClient (some "not found")))
      ⟨Except.ok ("default", false)⟩ ⟨"eth1", "blue-net", true⟩ ["vm-a"] () []).2.2
      (constClient (some "not found")) "default" false "vm-a" [] rfl rfl rfl⟩

end Network

namespace Subresource

/-! ### The restart wait -/

/-- The value a poll observes, case by case. -/
theorem restartPoll_cases (vmi : VirtualMachineInstance)
    (get : Except String VirtualMachineInstance) :
    (∀ e, get = Except.error e → restartPoll vmi get = VmPhaseUnset)
    ∧ (∀ n, get = Except.ok n → n.UID = vmi.UID → restartPoll vmi get = VmPhaseUnset)
    ∧ (∀ n, get = Except.ok n → n.UID ≠ vmi.UID → restartPoll vmi get = n.Status.Phase) := by
  refine ⟨?_, ?_, ?_⟩
  · intro e h; subst h; rfl
  · intro n h hu; subst h; simp [restartPoll, hu]
  · intro n h hu; subst h
    have : ¬ vmi.UID = n.UID := fun h => hu h.symm
    simp [restartPoll, this]

/-- Counterexample to C7 as stated: the Instance recorded before the restart
has UID `uid-1`; the poll fetches, without error, an Instance with the same
UID whose phase is unset.  The closure returns the unset phase, which is the
fetched Instance's phase, although the UID did not change; so "the observed
value is the fetched phase if and only if the fetch succeeded with a new UID"
fails there. -/
theorem restartPoll_iff_fails :
    restartPoll ⟨"uid-1", ⟨Running, ""⟩⟩ (Except.ok ⟨"uid-1", ⟨VmPhaseUnset, ""⟩⟩)
        = VmPhaseUnset
    ∧ ¬ (observedFetchedPhase ⟨"uid-1", ⟨Running, ""⟩⟩
          (Except.ok ⟨"uid-1", ⟨VmPhaseUnset, ""⟩⟩)
        ↔ fetchedNewIncarnation ⟨"uid-1", ⟨Running, ""⟩⟩
          (Except.ok ⟨"uid-1", ⟨VmPhaseUnset, ""⟩⟩)) := by
  refine ⟨by decide, ?_⟩
  intro h
  have hl : observedFetchedPhase ⟨"uid-1", ⟨Running, ""⟩⟩
      (Except.ok ⟨"uid-1", ⟨VmPhaseUnset, ""⟩⟩) := ⟨_, rfl, by decide⟩
  obtain ⟨n, hn, hu⟩ := h.mp hl
  cases hn
  exact hu rfl

/-- C7 (amended): a poll observes the fetched Instance's phase whenever the
fetch succeeded with a UID different from the recorded one, and observes the
unset phase whenever the fetch failed or the UID is unchanged; the unset phase
is not `Running`, so the observed value is `Running` exactly for a fetched
Instance with a new UID whose phase is `Running`; and an observed value that
is the fetched phase and is not the unset phase comes from a new UID. -/
theorem restartPoll_never_stale (vmi : VirtualMachineInstance)
    (get : Except String VirtualMachineInstance) :
    (∀ n, get = Except.ok n → n.UID ≠ vmi.UID → restartPoll vmi get = n.Status.Phase)
    ∧ (¬ fetchedNewIncarnation vmi get → restartPoll vmi get = VmPhaseUnset)
    ∧ VmPhaseUnset ≠ Running
    ∧ (restartPoll vmi get = Running
        ↔ ∃ n, get = Except.ok n ∧ n.UID ≠ vmi.UID ∧ n.Status.Phase = Running)
    ∧ (∀ n, get = Except.ok n → restartPoll vmi get = n.Status.Phase →
        n.Status.Phase ≠ VmPhaseUnset → n.UID ≠ vmi.UID) := by
  have hne : VmPhaseUnset ≠ Running := by decide
  obtain ⟨he, hs, hd⟩ := restartPoll_cases vmi get
  refine ⟨hd, ?_, hne, ?_, ?_⟩
  · intro hnot
    cases hg : get with
    | error e => exact hg ▸ he e hg
    | ok n =>
      by_cases hu : n.UID = vmi.UID
      · exact hg ▸ hs n hg hu
      · exact absurd ⟨n, hg, hu⟩ hnot
  · constructor
    · intro hr
      cases hg : get with
      | error e => rw [he e hg] at hr; exact absurd hr hne
      | ok n =>
        by_cases hu : n.UID = vmi.UID
        · rw [hs n hg hu] at hr; exact absurd hr hne
        · exact ⟨n, rfl, hu, by rw [hd n hg hu] at hr; exact hr⟩
    · rintro ⟨n, hg, hu, hp⟩
      rw [hd n hg hu, hp]
  · intro n hg hr hp hu
    rw [hs n hg hu] at hr
    exact hp hr.symm

end Subresource

namespace Quiescence

/-! ### Shared lemmas about the controller -/

theorem freeze_of_agent (t : Nat) (i : Instance) (h : i.guestAgent = true) :
    freeze t i = (none, { i with sessions :=
      [{ armedAt := i.now, deadline := if t = 0 then none else some (i.now + t) }] }) := by
  simp [freeze, h]

theorem unfreeze_of_agent (i : Instance) (h : i.guestAgent = true) :
    unfreeze i = (none, { i with sessions := [] }) := by
  simp [unfreeze, h]

theorem agent_of_freeze_accepted (t : Nat) (i : Instance) (h : (freeze t i).1 = none) :
    i.guestAgent = true := by
  cases hg : i.guestAgent with
  | true => rfl
  | false => simp [freeze, hg] at h

/-- Time passing without any deadline being reached only moves the clock. -/
theorem tick_quiet (i : Instance)
    (h : ∀ s ∈ i.sessions, ∀ d, s.deadline = some d → i.now + 1 < d) :
    tick i = { i with now := i.now + 1 } := by
  have hno : (i.sessions.any (expired (i.now + 1))) = false := by
    rw [List.any_eq_false]
    intro s hs
    cases hd : s.deadline with
    | none => simp [expired, hd]
    | some d =>
      have := h s hs d hd
      simp [expired, hd]
      omega
  simp [tick, hno]

theorem wait_quiet (n : Nat) : ∀ i : Instance,
    (∀ s ∈ i.sessions, ∀ d, s.deadline = some d → i.now + n < d) →
    wait n i = { i with now := i.now + n } := by
  induction n with
  | zero => intro i _; rfl
  | succ n ih =>
    intro i h
    have ht : tick i = { i with now := i.now + 1 } :=
      tick_quiet i (fun s hs d hd => by have := h s hs d hd; omega)
    simp only [wait]
    rw [ht, ih]
    · simp only [Instance.mk.injEq, and_true, true_and]
      omega
    · intro s hs d hd
      have := h s hs d hd
      simp only
      omega

/-- An unfrozen Instance stays as it is while time passes. -/
theorem wait_unfrozen (n : Nat) (i : Instance) (h : i.sessions = []) :
    wait n i = { i with now := i.now + n } :=
  wait_quiet n i (by simp [h])

theorem wait_add (m : Nat) : ∀ (n : Nat) (i : Instance), wait (m + n) i = wait n (wait m i) := by
  induction m with
  | zero => intro n i; simp [wait]
  | succ m ih =>
    intro n i
    have : m + 1 + n = (m + n) + 1 := by omega
    rw [this]
    simp only [wait]
    exact ih n (tick i)

/-- The deadline of an accepted freeze with a positive timeout fires at the
tick that reaches it, as an unfreeze. -/
theorem tick_fires (i : Instance) (a d : Nat) (hs : i.sessions = [⟨a, some d⟩])
    (hd : d ≤ i.now + 1) (hg : i.guestAgent = true) :
    tick i = { i with now := i.now + 1, sessions := [],
                      autoUnfreezes := i.autoUnfreezes ++ [i.now + 1] } := by
  simp [tick, hs, expired, hd, unfreeze, hg]

/-- A pending deadline `d` fires exactly when the clock reaches `d`: the
session is destroyed by the controller and the call is recorded. -/
theorem wait_expiry (j : Instance) (a d : Nat) (hs : j.sessions = [⟨a, some d⟩])
    (hg : j.guestAgent = true) (hlt : j.now < d) :
    wait (d - j.now) j = ⟨j.guestAgent, d, [], j.autoUnfreezes ++ [d]⟩ := by
  have hsplit : d - j.now = (d - j.now - 1) + 1 := by omega
  rw [hsplit, wait_add, wait_quiet (d - j.now - 1) j]
  · simp only [wait]
    rw [tick_fires ⟨j.guestAgent, j.now + (d - j.now - 1), j.sessions, j.autoUnfreezes⟩ a d hs
      (by dsimp only; omega) hg]
    have hd : j.now + (d - j.now - 1) + 1 = d := by omega
    simp only [hd]
  · intro s hm e he
    rw [hs] at hm
    simp only [List.mem_singleton] at hm
    subst hm
    simp only [Option.some.injEq] at he
    omega

/-- Once the deadline `d` has passed the Instance is unfrozen, with the one
reversal call recorded, for as long as nothing else happens. -/
theorem wait_past_expiry (j : Instance) (a d : Nat) (hs : j.sessions = [⟨a, some d⟩])
    (hg : j.guestAgent = true) (hlt : j.now < d) (n : Nat) (hn : d - j.now ≤ n) :
    wait n j = ⟨j.guestAgent, j.now + n, [], j.autoUnfreezes ++ [d]⟩ := by
  have hsplit : n = (d - j.now) + (n - (d - j.now)) := by omega
  rw [hsplit, wait_add, wait_expiry j a d hs hg hlt, wait_unfrozen _ _ rfl]
  simp only [Instance.mk.injEq, and_true, true_and]
  omega

theorem Inv_step (e : Event) (i : Instance) (h : Inv i) : Inv (step e i).2 := by
  obtain ⟨h1, h2, h3⟩ := h
  cases e with
  | freeze t =>
    cases hg : i.guestAgent with
    | false =>
      have hsame : (step (Event.freeze t) i).2 = i := by simp [step, freeze, hg]
      rw [hsame]
      exact ⟨h1, h2, h3⟩
    | true =>
      simp only [step, freeze_of_agent t i hg]
      refine ⟨fun _ => hg, by simp, ?_⟩
      intro s hs
      simp only [List.mem_singleton] at hs
      subst hs
      by_cases ht : t = 0
      · simp [expired, ht]
      · simp [expired, ht]
  | unfreeze =>
    cases hg : i.guestAgent with
    | false =>
      have hsame : (step Event.unfreeze i).2 = i := by simp [step, unfreeze, hg]
      rw [hsame]
      exact ⟨h1, h2, h3⟩
    | true =>
      simp only [step, unfreeze_of_agent i hg]
      exact ⟨fun h => absurd rfl h, by simp, by simp⟩
  | tick =>
    simp only [step, tick]
    split
    · rename_i hany
      have hne : i.sessions ≠ [] := by
        intro h0
        simp [h0] at hany
      have hg := h1 hne
      simp only [unfreeze, hg, if_true]
      exact ⟨fun h => absurd rfl h, by simp, by simp⟩
    · rename_i hany
      refine ⟨h1, h2, ?_⟩
      intro s hs
      simp only [List.any_eq_true, not_exists, not_and, Bool.not_eq_true] at hany
      exact hany s hs

theorem Inv_run (es : List Event) : ∀ i : Instance, Inv i → Inv (run es i).2 := by
  induction es with
  | nil => intro i h; exact h
  | cons e es ih => intro i h; exact ih _ (Inv_step e i h)

theorem Inv_of_reachable (i : Instance) (h : Reachable i) : Inv i := by
  obtain ⟨g, t0, es, rfl⟩ := h
  exact Inv_run es _ ⟨by simp [initial], by simp [initial], by simp [initial]⟩

theorem sessions_of_unfrozen (i : Instance) (h : state i = FreezeState.Unfrozen) :
    i.sessions = [] := by
  cases hs : i.sessions with
  | nil => rfl
  | cons a l => simp [state, hs] at h

theorem sessions_of_frozen (i : Instance) (h : state i = FreezeState.Frozen) :
    i.sessions ≠ [] := by
  intro hs
  simp [state, hs] at h

/-! ### Claims about the controller -/

/-- C8: unfreeze is idempotent.  For an Instance with a guest agent that is
already Unfrozen, `unfreeze` returns success and leaves the Instance as it
was: Unfrozen, no pending deadline; any number of consecutive unfreeze calls
all succeed, change nothing, and the freeze status stays `""`. -/
theorem unfreeze_idempotent (i : Instance) (hagent : i.guestAgent = true)
    (hu : state i = FreezeState.Unfrozen) :
    (unfreeze i).1 = none
    ∧ (unfreeze i).2 = i
    ∧ state (unfreeze i).2 = FreezeState.Unfrozen
    ∧ pendingDeadlines (unfreeze i).2 = []
    ∧ ∀ n, (run (List.replicate n Event.unfreeze) i).1 = List.replicate n none
        ∧ (run (List.replicate n Event.unfreeze) i).2 = i
        ∧ FSFreezeStatus (run (List.replicate n Event.unfreeze) i).2 = "" := by
  have hs := sessions_of_unfrozen i hu
  have hfix : unfreeze i = (none, i) := by
    rw [unfreeze_of_agent i hagent]
    cases i
    simp_all
  have hrun : ∀ n, run (List.replicate n Event.unfreeze) i = (List.replicate n none, i) := by
    intro n
    induction n with
    | zero => rfl
    | succ n ih => simp [List.replicate_succ, run, step, hfix, ih]
  refine ⟨by rw [hfix], by rw [hfix], by rw [hfix]; exact hu, ?_, ?_⟩
  · rw [hfix]; simp [pendingDeadlines, hs]
  · intro n
    rw [hrun n]
    exact ⟨rfl, rfl, by simp [FSFreezeStatus, hs]⟩

/-- Witness for C8: a running guest with an agent, never frozen. -/
theorem unfreeze_idempotent_witness :
    (unfreeze (initial true 7)).1 = none
    ∧ (run (List.replicate 5 Event.unfreeze) (initial true 7)).1 = List.replicate 5 none
    ∧ FSFreezeStatus (run (List.replicate 5 Event.unfreeze) (initial true 7)).2 = "" :=
  ⟨(unfreeze_idempotent (initial true 7) rfl rfl).1,
   ((unfreeze_idempotent (initial true 7) rfl rfl).2.2.2.2 5).1,
   ((unfreeze_idempotent (initial true 7) rfl rfl).2.2.2.2 5).2.2⟩

/-- C9: re-arming is last-writer-wins.  For an Instance the controller has
brought to Frozen and every timeout `t`, `freeze t` returns success, the
Instance stays Frozen with exactly one session, armed now, whose deadline is
given by `t` alone (none for `t = 0`, `now + t` otherwise) whatever was pending
before; accordingly the status stays `frozen` for ever when `t = 0` and, when
`t > 0`, up to `t` units later and not beyond. -/
theorem freeze_rearm_last_writer_wins (i : Instance) (t : Nat) (hr : Reachable i)
    (hf : state i = FreezeState.Frozen) :
    (freeze t i).1 = none
    ∧ state (freeze t i).2 = FreezeState.Frozen
    ∧ (freeze t i).2.sessions.length = 1
    ∧ (freeze t i).2.sessions
        = [{ armedAt := i.now, deadline := if t = 0 then none else some (i.now + t) }]
    ∧ pendingDeadlines (freeze t i).2 = (if t = 0 then [] else [i.now + t])
    ∧ (∀ n, t = 0 ∨ n < t → FSFreezeStatus (wait n (freeze t i).2) = "frozen")
    ∧ (∀ n, 0 < t → t < n → FSFreezeStatus (wait n (freeze t i).2) = "") := by
  have hg : i.guestAgent = true := (Inv_of_reachable i hr).1 (sessions_of_frozen i hf)
  rw [freeze_of_agent t i hg]
  refine ⟨rfl, by simp [state], by simp, rfl, ?_, ?_, ?_⟩
  · by_cases ht : t = 0 <;> simp [pendingDeadlines, ht]
  · intro n hn
    rw [wait_quiet]
    · simp [FSFreezeStatus]
    · intro s hs d hd
      simp only [List.mem_singleton] at hs
      subst hs
      by_cases ht : t = 0
      · simp [ht] at hd
      · simp only [ht, if_false, Option.some.injEq] at hd
        have : n < t := by
          rcases hn with h | h
          · exact absurd h ht
          · exact h
        simp only
        omega
  · intro n ht hn
    have ht0 : t ≠ 0 := by omega
    dsimp only
    rw [wait_past_expiry
      ⟨i.guestAgent, i.now, [⟨i.now, if t = 0 then none else some (i.now + t)⟩], i.autoUnfreezes⟩
      i.now (i.now + t) (by simp [ht0]) hg (by dsimp only; omega) n (by dsimp only; omega)]
    simp [FSFreezeStatus]

/-- Witness for C9: a freeze with timeout 3 at time 10, one unit later a
re-arm with timeout 5: one session, armed at 11 with deadline 16, and the
Instance is still frozen 4 units later, past the replaced deadline 13. -/
theorem freeze_rearm_last_writer_wins_witness :
    (freeze 5 (run [Event.freeze 3, Event.tick] (initial true 10)).2).1 = none
    ∧ (freeze 5 (run [Event.freeze 3, Event.tick] (initial true 10)).2).2.sessions
        = [{ armedAt := 11, deadline := some 16 }]
    ∧ FSFreezeStatus (wait 4 (freeze 5 (run [Event.freeze 3, Event.tick] (initial true 10)).2).2)
        = "frozen" :=
  ⟨(freeze_rearm_last_writer_wins (run [Event.freeze 3, Event.tick] (initial true 10)).2 5
      ⟨true, 10, [Event.freeze 3, Event.tick], rfl⟩ rfl).1,
   (freeze_rearm_last_writer_wins (run [Event.freeze 3, Event.tick] (initial true 10)).2 5
      ⟨true, 10, [Event.freeze 3, Event.tick], rfl⟩ rfl).2.2.2.1,
   (freeze_rearm_last_writer_wins (run [Event.freeze 3, Event.tick] (initial true 10)).2 5
      ⟨true, 10, [Event.freeze 3, Event.tick], rfl⟩ rfl).2.2.2.2.2.1 4 (Or.inr (by decide))⟩

/-- C10: a freeze with a positive timeout reverts by itself.  After
`freeze T` with `T > 0` is accepted and with no call from outside, the status
is `frozen` at every time before the deadline and `""` at every time later
than `T` after arming; the reversal happens once, when the clock reaches the
deadline, and leaves the Instance as the explicit `unfreeze` issued at that
time leaves it (which succeeds), the ghost record of the call apart. -/
theorem freeze_timeout_auto_reverts (i : Instance) (T : Nat) (hT : 0 < T)
    (hacc : (freeze T i).1 = none) :
    (∀ n, n < T → FSFreezeStatus (wait n (freeze T i).2) = "frozen")
    ∧ (∀ n, T < n → FSFreezeStatus (wait n (freeze T i).2) = "")
    ∧ (∀ n, n < T → (wait n (freeze T i).2).autoUnfreezes = i.autoUnfreezes)
    ∧ (∀ n, T ≤ n → (wait n (freeze T i).2).autoUnfreezes = i.autoUnfreezes ++ [i.now + T])
    ∧ (unfreeze { (freeze T i).2 with now := i.now + T }).1 = none
    ∧ wait T (freeze T i).2
        = { (unfreeze { (freeze T i).2 with now := i.now + T }).2 with
              autoUnfreezes := i.autoUnfreezes ++ [i.now + T] } := by
  have hg : i.guestAgent = true := agent_of_freeze_accepted T i hacc
  have hT0 : T ≠ 0 := by omega
  have hpast : ∀ n, T ≤ n →
      wait n ⟨i.guestAgent, i.now, [⟨i.now, if T = 0 then none else some (i.now + T)⟩],
                i.autoUnfreezes⟩
        = ⟨i.guestAgent, i.now + n, [], i.autoUnfreezes ++ [i.now + T]⟩ := fun n hn =>
    wait_past_expiry
      ⟨i.guestAgent, i.now, [⟨i.now, if T = 0 then none else some (i.now + T)⟩], i.autoUnfreezes⟩
      i.now (i.now + T) (by simp [hT0]) hg (by dsimp only; omega) n (by dsimp only; omega)
  have hbefore : ∀ n, n < T →
      wait n ⟨i.guestAgent, i.now, [⟨i.now, if T = 0 then none else some (i.now + T)⟩],
                i.autoUnfreezes⟩
        = ⟨i.guestAgent, i.now + n, [⟨i.now, if T = 0 then none else some (i.now + T)⟩],
                i.autoUnfreezes⟩ := by
    intro n hn
    rw [wait_quiet]
    intro s hs d hd
    simp only [List.mem_singleton] at hs
    subst hs
    simp only [hT0, if_false, Option.some.injEq] at hd
    dsimp only
    omega
  rw [freeze_of_agent T i hg]
  dsimp only
  refine ⟨?_, ?_, ?_, ?_, ?_, ?_⟩
  · intro n hn
    rw [hbefore n hn]
    simp [FSFreezeStatus]
  · intro n hn
    rw [hpast n (by omega)]
    simp [FSFreezeStatus]
  · intro n hn
    rw [hbefore n hn]
  · intro n hn
    rw [hpast n hn]
  · simp [unfreeze, hg]
  · rw [hpast T (le_refl T)]
    simp [unfreeze, hg]

/-- Witness for C10: the timeout of the test, 10 units, on a guest with an
agent: frozen 9 units later, unfrozen 11 units later. -/
theorem freeze_timeout_auto_reverts_witness :
    FSFreezeStatus (wait 9 (freeze 10 (initial true 0)).2) = "frozen"
    ∧ FSFreezeStatus (wait 11 (freeze 10 (initial true 0)).2) = ""
    ∧ (wait 11 (freeze 10 (initial true 0)).2).autoUnfreezes = [10] :=
  ⟨(freeze_timeout_auto_reverts (initial true 0) 10 (by decide) rfl).1 9 (by decide),
   (freeze_timeout_auto_reverts (initial true 0) 10 (by decide) rfl).2.1 11 (by decide),
   (freeze_timeout_auto_reverts (initial true 0) 10 (by decide) rfl).2.2.2.1 11 (by decide)⟩

end Quiescence

namespace Quiescence

/-! ### Claims about indefinite freezes, missing agents and cancelled deadlines -/

/-- A run made of time passing only is `wait`. -/
theorem run_ticks (es : List Event) : ∀ i : Instance, (∀ e ∈ es, e = Event.tick) →
    (run es i).2 = wait es.length i := by
  induction es with
  | nil => intro i _; rfl
  | cons e es ih =>
    intro i h
    have he : e = Event.tick := h e (List.mem_cons_self e es)
    subst he
    simp only [run, step, List.length_cons, wait]
    exact ih (tick i) (fun e hm => h e (List.mem_cons_of_mem _ hm))

/-- C11: a freeze with timeout 0 is never reverted spontaneously.  After
`freeze 0` is accepted on an Unfrozen Instance no deadline is pending, and
however much time passes with no unfreeze and no further freeze (every state
reached by time passing alone) the status is still `frozen`, the session is
the one armed by that freeze, and no reversal call has been issued. -/
theorem freeze_zero_never_reverts (i : Instance) (_hu : state i = FreezeState.Unfrozen)
    (hacc : (freeze 0 i).1 = none) :
    pendingDeadlines (freeze 0 i).2 = []
    ∧ FSFreezeStatus (freeze 0 i).2 = "frozen"
    ∧ (∀ n, FSFreezeStatus (wait n (freeze 0 i).2) = "frozen"
        ∧ (wait n (freeze 0 i).2).sessions = [{ armedAt := i.now, deadline := none }]
        ∧ (wait n (freeze 0 i).2).autoUnfreezes = i.autoUnfreezes)
    ∧ (∀ es, (∀ e ∈ es, e = Event.tick) →
        FSFreezeStatus (run es (freeze 0 i).2).2 = "frozen"
        ∧ (run es (freeze 0 i).2).2.autoUnfreezes = i.autoUnfreezes) := by
  have hg : i.guestAgent = true := agent_of_freeze_accepted 0 i hacc
  have hw : ∀ n, wait n (freeze 0 i).2
      = ⟨i.guestAgent, i.now + n, [{ armedAt := i.now, deadline := none }], i.autoUnfreezes⟩ := by
    intro n
    rw [freeze_of_agent 0 i hg, wait_quiet]
    · simp
    · intro s hs d hd
      simp at hs
      subst hs
      simp at hd
  refine ⟨?_, ?_, ?_, ?_⟩
  · rw [freeze_of_agent 0 i hg]; simp [pendingDeadlines]
  · rw [freeze_of_agent 0 i hg]; simp [FSFreezeStatus]
  · intro n
    rw [hw n]
    exact ⟨by simp [FSFreezeStatus], rfl, rfl⟩
  · intro es hes
    rw [run_ticks es _ hes, hw]
    exact ⟨by simp [FSFreezeStatus], rfl⟩

/-- Witness for C11: a guest with an agent, frozen at time 0 with timeout 0,
is still frozen a thousand units later and after five recorded ticks. -/
theorem freeze_zero_never_reverts_witness :
    pendingDeadlines (freeze 0 (initial true 0)).2 = []
    ∧ FSFreezeStatus (wait 1000 (freeze 0 (initial true 0)).2) = "frozen"
    ∧ FSFreezeStatus (run (List.replicate 5 Event.tick) (freeze 0 (initial true 0)).2).2
        = "frozen" :=
  ⟨(freeze_zero_never_reverts (initial true 0) rfl rfl).1,
   ((freeze_zero_never_reverts (initial true 0) rfl rfl).2.2.1 1000).1,
   ((freeze_zero_never_reverts (initial true 0) rfl rfl).2.2.2
      (List.replicate 5 Event.tick) (by decide)).1⟩

/-- The text of a failure of the exposed operations contains its marker. -/
theorem contains_marker (marker rest : String) :
    ContainSubstring (marker ++ rest) marker = true := by
  unfold ContainSubstring
  exact decide_eq_true ⟨[], rest.data, by simp [String.data_append]⟩

/-- The text of a failure of the exposed operations contains the condition
that follows the marker. -/
theorem contains_condition (front condition : String) :
    ContainSubstring (front ++ condition) condition = true := by
  unfold ContainSubstring
  exact decide_eq_true ⟨front.data, [], by simp [String.data_append]⟩

/-- C12: without a guest agent both operations fail and change nothing.  For
every Instance without agent, every timeout (0 in particular) and whatever the
marker of the exposed operations is, `Freeze` and `Unfreeze` each return an
error and not `nil`; its text contains the marker and the controller's
condition "operation unsupported by guest"; the Instance, hence its freeze
status, is left as it was.  The tests 7476 and 7477 pass on such an Instance
exactly when that text contains `Internal error occurred`, which is what
they require of the marker; they pass when it is the marker, and they fail
on an operation that returns `nil`. -/
theorem no_agent_operations_fail (marker : String) (i : Instance) (t : Nat)
    (hno : i.guestAgent = false) :
    (Freeze marker 0 i).1 = some (marker ++ ": " ++ unsupportedText)
    ∧ (Freeze marker t i).1 = some (marker ++ ": " ++ unsupportedText)
    ∧ (Unfreeze marker i).1 = some (marker ++ ": " ++ unsupportedText)
    ∧ ContainSubstring (marker ++ ": " ++ unsupportedText) marker = true
    ∧ ContainSubstring (marker ++ ": " ++ unsupportedText) "operation unsupported by guest" = true
    ∧ (Freeze marker t i).2 = i
    ∧ (Unfreeze marker i).2 = i
    ∧ FSFreezeStatus (Freeze marker t i).2 = FSFreezeStatus i
    ∧ FSFreezeStatus (Unfreeze marker i).2 = FSFreezeStatus i
    ∧ (freeze t i = (some unsupportedText, i) ∧ unfreeze i = (some unsupportedText, i))
    ∧ freezeWithoutGuestAgent (Freeze marker) i
        = ContainSubstring (marker ++ ": " ++ unsupportedText) "Internal error occurred"
    ∧ unfreezeWithoutGuestAgent (Unfreeze marker) i
        = ContainSubstring (marker ++ ": " ++ unsupportedText) "Internal error occurred"
    ∧ freezeWithoutGuestAgent (Freeze "Internal error occurred") i = true
    ∧ unfreezeWithoutGuestAgent (Unfreeze "Internal error occurred") i = true
    ∧ (∀ silent : Nat → Instance → GoError × Instance, (silent 0 i).1 = none →
        freezeWithoutGuestAgent silent i = false)
    ∧ (∀ silent : Instance → GoError × Instance, (silent i).1 = none →
        unfreezeWithoutGuestAgent silent i = false) := by
  have hf : ∀ k, freeze k i = (some unsupportedText, i) := by
    intro k; simp [freeze, hno]
  have hun : unfreeze i = (some unsupportedText, i) := by simp [unfreeze, hno]
  have hF : ∀ m k, Freeze m k i = (some (m ++ ": " ++ unsupportedText), i) := by
    intro m k; simp [Freeze, hf k]
  have hU : ∀ m, Unfreeze m i = (some (m ++ ": " ++ unsupportedText), i) := by
    intro m; simp [Unfreeze, hun]
  have hmark : ∀ m : String, ContainSubstring (m ++ ": " ++ unsupportedText) m = true := by
    intro m
    rw [String.append_assoc]
    exact contains_marker m _
  refine ⟨by rw [hF], by rw [hF], by rw [hU], hmark marker, contains_condition _ _,
    by rw [hF], by rw [hU], by rw [hF], by rw [hU], ⟨hf t, hun⟩, ?_, ?_, ?_, ?_, ?_, ?_⟩
  · simp [freezeWithoutGuestAgent, hF, expectedErr]
  · simp [unfreezeWithoutGuestAgent, hU, expectedErr]
  · simp only [freezeWithoutGuestAgent, hF, expectedErr]
    exact hmark _
  · simp only [unfreezeWithoutGuestAgent, hU, expectedErr]
    exact hmark _
  · intro silent hs
    simp [freezeWithoutGuestAgent, hs]
  · intro silent hs
    simp [unfreezeWithoutGuestAgent, hs]

/-- Witness for C12: a guest without agent, unfrozen at time 0, and the marker
of the tests. -/
theorem no_agent_operations_fail_witness :
    (Freeze "Internal error occurred" 0 (initial false 0)).1
        = some ("Internal error occurred" ++ ": " ++ unsupportedText)
    ∧ (Unfreeze "Internal error occurred" (initial false 0)).1
        = some ("Internal error occurred" ++ ": " ++ unsupportedText)
    ∧ (Freeze "Internal error occurred" 0 (initial false 0)).2 = initial false 0
    ∧ (Unfreeze "Internal error occurred" (initial false 0)).2 = initial false 0
    ∧ freezeWithoutGuestAgent (Freeze "Internal error occurred") (initial false 0) = true
    ∧ unfreezeWithoutGuestAgent (Unfreeze "Internal error occurred") (initial false 0) = true :=
  ⟨(no_agent_operations_fail "Internal error occurred" (initial false 0) 0 rfl).1,
   (no_agent_operations_fail "Internal error occurred" (initial false 0) 0 rfl).2.2.1,
   (no_agent_operations_fail "Internal error occurred" (initial false 0) 0 rfl).2.2.2.2.2.1,
   (no_agent_operations_fail "Internal error occurred" (initial false 0) 0 rfl).2.2.2.2.2.2.1,
   (no_agent_operations_fail "Internal error occurred"
      (initial false 0) 0 rfl).2.2.2.2.2.2.2.2.2.2.2.2.1,
   (no_agent_operations_fail "Internal error occurred"
      (initial false 0) 0 rfl).2.2.2.2.2.2.2.2.2.2.2.2.2.1⟩

end Quiescence

namespace Quiescence

/-- C13: cancel-before-fire.  For every timeout `T > 0`, when `unfreeze` is
issued `m < T` units after an accepted `freeze T`, it is acknowledged, no
deadline is pending any more and the status is `""`; the Instance is left with
no session and no recorded reversal, and none is recorded however much time
passes; a freeze issued any time later is held by its own timeout alone: with
timeout 0 it stays frozen for ever, with timeout `t > 0` for the `t` units
that follow, also across the time the cancelled deadline pointed to. -/
theorem unfreeze_cancels_deadline (i : Instance) (T m : Nat) (hT : 0 < T)
    (hacc : (freeze T i).1 = none) (hm : m < T) :
    (unfreeze (wait m (freeze T i).2)).1 = none
    ∧ pendingDeadlines (wait m (freeze T i).2) = [i.now + T]
    ∧ (unfreeze (wait m (freeze T i).2)).2 = ⟨i.guestAgent, i.now + m, [], i.autoUnfreezes⟩
    ∧ pendingDeadlines (unfreeze (wait m (freeze T i).2)).2 = []
    ∧ FSFreezeStatus (unfreeze (wait m (freeze T i).2)).2 = ""
    ∧ (∀ n, FSFreezeStatus (wait n (unfreeze (wait m (freeze T i).2)).2) = ""
        ∧ (wait n (unfreeze (wait m (freeze T i).2)).2).autoUnfreezes = i.autoUnfreezes)
    ∧ (∀ k n,
        FSFreezeStatus (wait n (freeze 0 (wait k (unfreeze (wait m (freeze T i).2)).2)).2)
          = "frozen"
        ∧ (wait n (freeze 0 (wait k (unfreeze (wait m (freeze T i).2)).2)).2).autoUnfreezes
          = i.autoUnfreezes)
    ∧ (∀ k t n, 0 < t → n < t →
        FSFreezeStatus (wait n (freeze t (wait k (unfreeze (wait m (freeze T i).2)).2)).2)
          = "frozen"
        ∧ (wait n (freeze t (wait k (unfreeze (wait m (freeze T i).2)).2)).2).autoUnfreezes
          = i.autoUnfreezes) := by
  have hg : i.guestAgent = true := agent_of_freeze_accepted T i hacc
  have hT0 : T ≠ 0 := by omega
  have hw : wait m (freeze T i).2
      = ⟨i.guestAgent, i.now + m, [⟨i.now, some (i.now + T)⟩], i.autoUnfreezes⟩ := by
    rw [freeze_of_agent T i hg, wait_quiet]
    · simp [hT0]
    · intro s hs d hd
      simp only [List.mem_singleton] at hs
      subst hs
      simp only [hT0, if_false, Option.some.injEq] at hd
      dsimp only
      omega
  have hu : unfreeze (wait m (freeze T i).2)
      = (none, ⟨i.guestAgent, i.now + m, [], i.autoUnfreezes⟩) := by
    rw [hw]
    simp [unfreeze, hg]
  have hlater : ∀ k, wait k (⟨i.guestAgent, i.now + m, [], i.autoUnfreezes⟩ : Instance)
      = ⟨i.guestAgent, i.now + m + k, [], i.autoUnfreezes⟩ := fun k =>
    wait_unfrozen k _ rfl
  have hfz : ∀ k t n, (t = 0 ∨ n < t) →
      wait n (freeze t (⟨i.guestAgent, i.now + m + k, [], i.autoUnfreezes⟩ : Instance)).2
        = ⟨i.guestAgent, i.now + m + k + n,
            [⟨i.now + m + k, if t = 0 then none else some (i.now + m + k + t)⟩],
            i.autoUnfreezes⟩ := by
    intro k t n htn
    rw [freeze_of_agent t ⟨i.guestAgent, i.now + m + k, [], i.autoUnfreezes⟩ hg, wait_quiet]
    intro s hs d hd
    simp only [List.mem_singleton] at hs
    subst hs
    by_cases ht : t = 0
    · simp [ht] at hd
    · simp only [ht, if_false, Option.some.injEq] at hd
      have : n < t := by
        rcases htn with h | h
        · exact absurd h ht
        · exact h
      dsimp only
      omega
  rw [hu]
  refine ⟨rfl, ?_, rfl, by simp [pendingDeadlines], by simp [FSFreezeStatus], ?_, ?_, ?_⟩
  · rw [hw]; simp [pendingDeadlines]
  · intro n
    dsimp only
    rw [hlater n]
    exact ⟨by simp [FSFreezeStatus], rfl⟩
  · intro k n
    dsimp only
    rw [hlater k, hfz k 0 n (Or.inl rfl)]
    exact ⟨by simp [FSFreezeStatus], rfl⟩
  · intro k t n _ hn
    dsimp only
    rw [hlater k, hfz k t n (Or.inr hn)]
    exact ⟨by simp [FSFreezeStatus], rfl⟩

/-- Witness for C13: freeze with timeout 10 at time 0, unfreeze 3 units later,
freeze again with timeout 0 one unit after that: still frozen 20 units later,
well past time 10, and no reversal was ever issued. -/
theorem unfreeze_cancels_deadline_witness :
    (unfreeze (wait 3 (freeze 10 (initial true 0)).2)).1 = none
    ∧ FSFreezeStatus (unfreeze (wait 3 (freeze 10 (initial true 0)).2)).2 = ""
    ∧ FSFreezeStatus
        (wait 20 (freeze 0 (wait 1 (unfreeze (wait 3 (freeze 10 (initial true 0)).2)).2)).2)
        = "frozen"
    ∧ (wait 20 (freeze 0 (wait 1 (unfreeze (wait 3 (freeze 10 (initial true 0)).2)).2)).2).autoUnfreezes
        = [] :=
  ⟨(unfreeze_cancels_deadline (initial true 0) 10 3 (by decide) rfl (by decide)).1,
   (unfreeze_cancels_deadline (initial true 0) 10 3 (by decide) rfl (by decide)).2.2.2.2.1,
   ((unfreeze_cancels_deadline (initial true 0) 10 3 (by decide) rfl (by decide)).2.2.2.2.2.2.1
      1 20).1,
   ((unfreeze_cancels_deadline (initial true 0) 10 3 (by decide) rfl (by decide)).2.2.2.2.2.2.1
      1 20).2⟩

end Quiescence

namespace Subresource

/-! ### The access check -/

/-- C14: `testClientJob` expects the tester pod to end in phase `Succeeded` if
and only if it runs with the subresource service account or the resource is
`version` or `guestfs`; for every other resource without the service account
it expects `Failed`; and the expected phase is the same whatever the
namespace and the service account's name are. -/
theorem testClientJob_expectedPhase (ns sa ns2 sa2 : String) (withServiceAccount : Bool)
    (resource : String) :
    ((testClientJob ns sa withServiceAccount resource).expectedPhase = PodSucceeded
        ↔ (withServiceAccount = true ∨ resource = "version" ∨ resource = "guestfs"))
    ∧ (¬ (withServiceAccount = true ∨ resource = "version" ∨ resource = "guestfs") →
        (testClientJob ns sa withServiceAccount resource).expectedPhase = PodFailed)
    ∧ (testClientJob ns sa false "expand-vm-spec").expectedPhase = PodFailed
    ∧ (testClientJob ns sa true "expand-vm-spec").expectedPhase = PodSucceeded
    ∧ (testClientJob ns sa false "version").expectedPhase = PodSucceeded
    ∧ (testClientJob ns sa false "guestfs").expectedPhase = PodSucceeded
    ∧ (testClientJob ns sa withServiceAccount resource).expectedPhase
        = (testClientJob ns2 sa2 withServiceAccount resource).expectedPhase := by
  have hne : PodFailed ≠ PodSucceeded := by decide
  have hval : ∀ a b : String, (testClientJob a b withServiceAccount resource).expectedPhase
      = if withServiceAccount = true ∨ resource = "version" ∨ resource = "guestfs"
        then PodSucceeded else PodFailed := by
    intro a b
    cases withServiceAccount
    · by_cases h1 : resource = "version"
      · simp [testClientJob, h1]
      · by_cases h2 : resource = "guestfs"
        · simp [testClientJob, h2]
        · simp [testClientJob, h1, h2]
    · simp [testClientJob]
  refine ⟨?_, ?_, by simp [testClientJob], by simp [testClientJob],
    by simp [testClientJob], by simp [testClientJob], by rw [hval ns sa, hval ns2 sa2]⟩
  · rw [hval ns sa]
    by_cases h : withServiceAccount = true ∨ resource = "version" ∨ resource = "guestfs"
    · simp [h]
    · simp only [h, if_false, iff_false]
      exact hne
  · intro h
    rw [hval ns sa]
    simp only [h, if_false]

end Subresource
